import Mathlib

/-!
Verification of the grid-game engine in `roomba_game.py` (class
`RoombaCleanupGame`).  The mutable object state is embedded as the structure
`GameState`; the grid/trash/spawn configuration constants become a `Config`
record so the theorems can also speak about the small grids used in the
spec's scenarios.  Randomness is made explicit: the `random.shuffle` call in
`populate_trash` becomes a list argument together with a permutation
hypothesis, and `poop_spawn_tick`'s two random draws become a `Bool` (did
`random.random() < POOP_SPAWN_CHANCE` succeed) and a `Nat` index for
`random.choice`.
-/

set_option autoImplicit false

namespace Roomba

/-- Embeds the frozen dataclass `Point` (integer grid coordinate). -/
structure Point where
  x : Int
  y : Int
deriving DecidableEq

/-- The class-level configuration constants `GRID_WIDTH`, `GRID_HEIGHT` and
`STARTING_TRASH` of `RoombaCleanupGame`, kept abstract so small test grids
from the spec scenarios can be instantiated. -/
structure Config where
  gridWidth : Nat
  gridHeight : Nat
  startingTrash : Nat
deriving DecidableEq

/-- The configuration the source actually ships: 14x14 grid, 24 trash. -/
def defaultConfig : Config := ⟨14, 14, 24⟩

/-- The mutable game fields of `RoombaCleanupGame`: `self.player`,
`self.trash`, `self.poop`, `self.game_over`, `self.victory`. -/
structure GameState where
  player : Point
  trash : Finset Point
  poop : Finset Point
  game_over : Bool
  victory : Bool
deriving DecidableEq

/-- The list `[Point(x, y) for x in range(GRID_WIDTH) for y in range(GRID_HEIGHT)]`
built in `populate_trash` and `poop_spawn_tick` (x outer, y inner). -/
def allCells (cfg : Config) : List Point :=
  (List.range cfg.gridWidth).flatMap fun (x : Nat) =>
    (List.range cfg.gridHeight).map fun (y : Nat) => ⟨(x : Int), (y : Int)⟩

/-- The grid center `Point(GRID_WIDTH // 2, GRID_HEIGHT // 2)` used by
`__init__` and `restart`. -/
def center (cfg : Config) : Point :=
  ⟨((cfg.gridWidth / 2 : Nat) : Int), ((cfg.gridHeight / 2 : Nat) : Int)⟩

/-- `populate_trash`: build all cells, remove the player's cell, shuffle, and
keep the first `STARTING_TRASH` as the new trash set.  The shuffled list is
passed in; callers carry the hypothesis that it is a permutation of
`(allCells cfg).erase s.player`. -/
def populate_trash (cfg : Config) (shuffled : List Point) (s : GameState) :
    GameState :=
  { s with trash := (shuffled.take cfg.startingTrash).toFinset }

/-- `trigger_game_over`: `self.game_over = True; self.victory = False`. -/
def trigger_game_over (s : GameState) : GameState :=
  { s with game_over := true, victory := false }

/-- `resolve_player_tile`: hazard check first (loss), otherwise trash pickup
with the victory check on the emptied set. -/
def resolve_player_tile (s : GameState) : GameState :=
  if s.player ∈ s.poop then
    trigger_game_over s
  else if s.player ∈ s.trash then
    if s.trash.erase s.player = ∅ then
      { s with trash := s.trash.erase s.player, victory := true, game_over := true }
    else { s with trash := s.trash.erase s.player }
  else s

/-- The `movement` dict in `handle_keypress`, mapping a keysym to a delta. -/
def movement (key : String) : Option Point :=
  if key = "Up" then some ⟨0, -1⟩
  else if key = "Down" then some ⟨0, 1⟩
  else if key = "Left" then some ⟨-1, 0⟩
  else if key = "Right" then some ⟨1, 0⟩
  else if key = "w" then some ⟨0, -1⟩
  else if key = "s" then some ⟨0, 1⟩
  else if key = "a" then some ⟨-1, 0⟩
  else if key = "d" then some ⟨1, 0⟩
  else none

/-- Embeds the `event.keysym.lower()` call of `handle_keypress`:
character-wise ASCII lowering (the keysyms involved are all ASCII). -/
def keyLower (k : String) : String := ⟨k.data.map Char.toLower⟩

/-- The clamped destination computed in `handle_keypress`:
`min(max(player + delta, 0), GRID_SIZE - 1)` coordinate-wise. -/
def clampMove (cfg : Config) (p delta : Point) : Point :=
  ⟨min (max (p.x + delta.x) 0) ((cfg.gridWidth : Int) - 1),
   min (max (p.y + delta.y) 0) ((cfg.gridHeight : Int) - 1)⟩

/-- The fresh state built by `__init__` (and re-built by `restart`): player
centered, empty hazard set, flags cleared, then `populate_trash`. -/
def initGame (cfg : Config) (shuffled : List Point) : GameState :=
  populate_trash cfg shuffled
    { player := center cfg, trash := ∅, poop := ∅, game_over := false, victory := false }

/-- `restart`: recenters the player, clears both tile sets and both flags,
then repopulates trash — a wholesale reset that ignores the previous state. -/
def restart (cfg : Config) (shuffled : List Point) (_s : GameState) : GameState :=
  initGame cfg shuffled

/-- `handle_keypress`: when the game is over only `r`/`R` (restart) acts;
otherwise a recognized movement key clamps the player into the grid and
resolves the landing tile.  Status/draw calls are rendering only. -/
def handle_keypress (cfg : Config) (key : String) (shuffled : List Point)
    (s : GameState) : GameState :=
  if s.game_over then
    if keyLower key = "r" then restart cfg shuffled s else s
  else
    match movement key with
    | none => s
    | some delta => resolve_player_tile { s with player := clampMove cfg s.player delta }

/-- The candidate list built inside `poop_spawn_tick`: every grid cell not
already holding poop or trash, in grid enumeration order. -/
def spawn_candidates (cfg : Config) (s : GameState) : List Point :=
  (allCells cfg).filter fun p => decide (p ∉ s.poop ∧ p ∉ s.trash)

/-- `poop_spawn_tick`: when the game is live and the random draw succeeds,
pick a free cell (index `idx` models `random.choice`), add it to the poop
set, and end the game if it landed on the player.  The self-rescheduling
`root.after` call does not touch game state. -/
def poop_spawn_tick (cfg : Config) (draw : Bool) (idx : Nat) (s : GameState) :
    GameState :=
  if s.game_over = false ∧ draw = true then
    match spawn_candidates cfg s with
    | [] => s
    | c :: cs =>
      let spawned := (c :: cs).getD (idx % (c :: cs).length) c
      let s' := { s with poop := insert spawned s.poop }
      if spawned = s.player then trigger_game_over s' else s'
  else s

/-- One externally driven mutation of the game object: a key-press event or
a spawn-timer tick, with its nondeterministic inputs quantified. -/
inductive Step (cfg : Config) : GameState → GameState → Prop where
  | key (s : GameState) (k : String) (shuffled : List Point)
      (hperm : shuffled.Perm ((allCells cfg).erase (center cfg))) :
      Step cfg s (handle_keypress cfg k shuffled s)
  | tick (s : GameState) (draw : Bool) (idx : Nat) :
      Step cfg s (poop_spawn_tick cfg draw idx s)

/-- The states the game object can actually be in: freshly initialized, or
obtained from a reachable state by one key-press or spawn tick (restart is
the `r` key-press branch of `handle_keypress`). -/
inductive Reachable (cfg : Config) : GameState → Prop where
  | start (shuffled : List Point)
      (hperm : shuffled.Perm ((allCells cfg).erase (center cfg))) :
      Reachable cfg (initGame cfg shuffled)
  | step {s t : GameState} : Reachable cfg s → Step cfg s t → Reachable cfg t

/-! ### Concrete scenario data (used by witnesses) -/

/-- A 3x3 grid with a single starting trash tile: the spec's win-scenario
configuration. -/
def cfg3 : Config := ⟨3, 3, 1⟩

/-- A 1x1 grid with no starting trash, for the loss-by-spawn scenario. -/
def cfg1 : Config := ⟨1, 1, 0⟩

/-- The identity (unshuffled) outcome of `random.shuffle` on the available
cell list. -/
def idShuffle (cfg : Config) : List Point := (allCells cfg).erase (center cfg)

/-- A shuffle outcome on `cfg3` that places the single trash tile at
`(2,1)`, one step right of the centered player — the spec's win scenario. -/
def winShuffle : List Point :=
  ⟨2, 1⟩ :: (((allCells cfg3).erase (center cfg3)).erase ⟨2, 1⟩)

/-- A concrete terminal (lost) state on the 3x3 grid. -/
def lostState : GameState :=
  { player := ⟨1, 1⟩, trash := {⟨0, 0⟩}, poop := {⟨1, 1⟩},
    game_over := true, victory := false }

/-- A live state with the player at the origin, for the clamping scenario. -/
def originState : GameState :=
  { player := ⟨0, 0⟩, trash := {⟨2, 2⟩}, poop := ∅,
    game_over := false, victory := false }

/-- The spec's loss-by-move scenario: hazard at `(2,1)`, player at `(1,1)`. -/
def hazardState : GameState :=
  { player := ⟨1, 1⟩, trash := {⟨0, 0⟩}, poop := {⟨2, 1⟩},
    game_over := false, victory := false }

/-! ### Grid enumeration lemmas -/

lemma allCells_nodup (cfg : Config) : (allCells cfg).Nodup := by
  have hcol : ∀ x : Nat, ((List.range cfg.gridHeight).map
      (fun (y : Nat) => (⟨(x : Int), (y : Int)⟩ : Point))).Nodup := by
    intro x
    refine List.Nodup.map ?_ (List.nodup_range _)
    intro a b hab
    simpa using hab
  unfold allCells
  rw [List.nodup_flatMap]
  refine ⟨fun x _ => hcol x, ?_⟩
  refine List.Pairwise.imp ?_ (List.nodup_range _)
  intro a b hab p hpa hpb
  simp only [List.mem_map, List.mem_range] at hpa hpb
  obtain ⟨ya, _, rfl⟩ := hpa
  obtain ⟨yb, _, hy⟩ := hpb
  have hba : b = a ∧ yb = ya := by simpa using hy
  exact hab hba.1.symm

lemma allCells_length (cfg : Config) :
    (allCells cfg).length = cfg.gridWidth * cfg.gridHeight := by
  unfold allCells
  rw [List.length_flatMap]
  simp [Function.comp_def, List.map_const', List.sum_replicate, smul_eq_mul,
    Nat.mul_comm]

lemma center_mem_allCells (cfg : Config) (hW : 0 < cfg.gridWidth)
    (hH : 0 < cfg.gridHeight) : center cfg ∈ allCells cfg := by
  unfold allCells center
  rw [List.mem_flatMap]
  refine ⟨cfg.gridWidth / 2, List.mem_range.mpr (Nat.div_lt_self hW one_lt_two), ?_⟩
  simp only [List.mem_map, List.mem_range]
  exact ⟨cfg.gridHeight / 2, Nat.div_lt_self hH one_lt_two, rfl⟩

lemma available_length (cfg : Config) (hW : 0 < cfg.gridWidth)
    (hH : 0 < cfg.gridHeight) :
    ((allCells cfg).erase (center cfg)).length =
      cfg.gridWidth * cfg.gridHeight - 1 := by
  rw [List.length_erase_of_mem (center_mem_allCells cfg hW hH), allCells_length]

lemma center_not_mem_available (cfg : Config) :
    center cfg ∉ (allCells cfg).erase (center cfg) :=
  (allCells_nodup cfg).not_mem_erase

/-! ### Structural lemmas about the operations -/

lemma resolve_player_tile_player (s : GameState) :
    (resolve_player_tile s).player = s.player := by
  unfold resolve_player_tile trigger_game_over
  split_ifs <;> rfl

lemma resolve_player_tile_poop (s : GameState) :
    (resolve_player_tile s).poop = s.poop := by
  unfold resolve_player_tile trigger_game_over
  split_ifs <;> rfl

lemma resolve_player_tile_trash_subset (s : GameState) :
    (resolve_player_tile s).trash ⊆ s.trash := by
  unfold resolve_player_tile trigger_game_over
  split_ifs <;> first | exact Finset.Subset.refl _ | exact Finset.erase_subset _ _

lemma getD_cons_mem (c : Point) (cs : List Point) (n : Nat) :
    (c :: cs).getD n c ∈ c :: cs := by
  by_cases h : n < (c :: cs).length
  · rw [List.getD_eq_getElem _ _ h]
    exact List.getElem_mem h
  · rw [List.getD_eq_default _ _ (Nat.le_of_not_lt h)]
    exact List.mem_cons_self c cs

lemma mem_spawn_candidates {cfg : Config} {s : GameState} {p : Point}
    (h : p ∈ spawn_candidates cfg s) : p ∉ s.poop ∧ p ∉ s.trash := by
  unfold spawn_candidates at h
  simpa using (List.mem_filter.mp h).2

/-- Case analysis of one spawn tick: either it leaves the state alone, or the
game was live, the draw succeeded, and some free candidate cell got added. -/
lemma poop_spawn_tick_eq (cfg : Config) (draw : Bool) (idx : Nat)
    (s : GameState) :
    poop_spawn_tick cfg draw idx s = s ∨
    ∃ p, p ∈ spawn_candidates cfg s ∧ s.game_over = false ∧
      poop_spawn_tick cfg draw idx s =
        (if p = s.player
         then trigger_game_over { s with poop := insert p s.poop }
         else { s with poop := insert p s.poop }) := by
  unfold poop_spawn_tick
  split
  case isTrue h =>
    split
    case h_1 => left; rfl
    case h_2 c cs heq =>
      right
      refine ⟨(c :: cs).getD (idx % (c :: cs).length) c, ?_, h.1, rfl⟩
      rw [heq]
      exact getD_cons_mem c cs _
  case isFalse => left; rfl

/-- Case analysis of one key-press: ignored, a restart, or a resolved move. -/
lemma handle_keypress_eq (cfg : Config) (k : String) (sh : List Point)
    (s : GameState) :
    handle_keypress cfg k sh s = s ∨
    (s.game_over = true ∧ handle_keypress cfg k sh s = initGame cfg sh) ∨
    (s.game_over = false ∧ ∃ d, movement k = some d ∧
      handle_keypress cfg k sh s =
        resolve_player_tile { s with player := clampMove cfg s.player d }) := by
  unfold handle_keypress restart
  split
  case isTrue h =>
    split
    · right; left; exact ⟨h, rfl⟩
    · left; rfl
  case isFalse h =>
    split
    case h_1 => left; rfl
    case h_2 d hd =>
      right; right
      exact ⟨Bool.not_eq_true _ ▸ (by simpa using h), d, hd, rfl⟩

lemma poop_spawn_tick_player (cfg : Config) (draw : Bool) (idx : Nat)
    (s : GameState) : (poop_spawn_tick cfg draw idx s).player = s.player := by
  rcases poop_spawn_tick_eq cfg draw idx s with heq | ⟨p, _, _, heq⟩
  · rw [heq]
  · rw [heq]; split_ifs <;> rfl

lemma poop_spawn_tick_trash (cfg : Config) (draw : Bool) (idx : Nat)
    (s : GameState) : (poop_spawn_tick cfg draw idx s).trash = s.trash := by
  rcases poop_spawn_tick_eq cfg draw idx s with heq | ⟨p, _, _, heq⟩
  · rw [heq]
  · rw [heq]; split_ifs <;> rfl

/-! ### Reachability invariants -/

lemma center_bounds (cfg : Config) (hW : 0 < cfg.gridWidth)
    (hH : 0 < cfg.gridHeight) :
    0 ≤ (center cfg).x ∧ (center cfg).x < (cfg.gridWidth : Int) ∧
    0 ≤ (center cfg).y ∧ (center cfg).y < (cfg.gridHeight : Int) := by
  unfold center
  dsimp only
  refine ⟨Int.natCast_nonneg _, ?_, Int.natCast_nonneg _, ?_⟩
  · exact_mod_cast Nat.div_lt_self hW one_lt_two
  · exact_mod_cast Nat.div_lt_self hH one_lt_two

lemma clampMove_bounds (cfg : Config) (hW : 0 < cfg.gridWidth)
    (hH : 0 < cfg.gridHeight) (p d : Point) :
    0 ≤ (clampMove cfg p d).x ∧ (clampMove cfg p d).x < (cfg.gridWidth : Int) ∧
    0 ≤ (clampMove cfg p d).y ∧ (clampMove cfg p d).y < (cfg.gridHeight : Int) := by
  unfold clampMove
  dsimp only
  have hW' : (1 : Int) ≤ (cfg.gridWidth : Int) := by exact_mod_cast hW
  have hH' : (1 : Int) ≤ (cfg.gridHeight : Int) := by exact_mod_cast hH
  refine ⟨le_min (le_max_right _ _) (by omega), ?_,
    le_min (le_max_right _ _) (by omega), ?_⟩
  · have := min_le_right (max (p.x + d.x) 0) ((cfg.gridWidth : Int) - 1)
    omega
  · have := min_le_right (max (p.y + d.y) 0) ((cfg.gridHeight : Int) - 1)
    omega

/-- Trash and poop stay disjoint along every reachable run: trash only ever
shrinks after initialization and a spawned cell is drawn from the cells free
of both trash and poop. -/
lemma reachable_disjoint {cfg : Config} {s : GameState} (h : Reachable cfg s) :
    Disjoint s.trash s.poop := by
  induction h with
  | start sh hperm => exact Finset.disjoint_empty_right _
  | @step s t _ hst ih =>
    cases hst with
    | key k sh hperm =>
      rcases handle_keypress_eq cfg k sh s with heq | ⟨_, heq⟩ | ⟨_, d, hd, heq⟩
      · rw [heq]; exact ih
      · rw [heq]; exact Finset.disjoint_empty_right _
      · rw [heq, resolve_player_tile_poop]
        exact Disjoint.mono_left (resolve_player_tile_trash_subset _) ih
    | tick draw idx =>
      rcases poop_spawn_tick_eq cfg draw idx s with heq | ⟨p, hp, _, heq⟩
      · rw [heq]; exact ih
      · have hpt : p ∉ s.trash := (mem_spawn_candidates hp).2
        rw [heq]
        split_ifs <;>
          · show Disjoint s.trash (insert p s.poop)
            rw [Finset.disjoint_insert_right]
            exact ⟨hpt, ih⟩

/-- The player coordinate stays inside the grid: initialization and restart
center it, and every move clamps into `[0, W-1] × [0, H-1]`. -/
lemma reachable_player_bounds {cfg : Config} (hW : 0 < cfg.gridWidth)
    (hH : 0 < cfg.gridHeight) {s : GameState} (h : Reachable cfg s) :
    0 ≤ s.player.x ∧ s.player.x < (cfg.gridWidth : Int) ∧
    0 ≤ s.player.y ∧ s.player.y < (cfg.gridHeight : Int) := by
  induction h with
  | start sh hperm => exact center_bounds cfg hW hH
  | @step s t _ hst ih =>
    cases hst with
    | key k sh hperm =>
      rcases handle_keypress_eq cfg k sh s with heq | ⟨_, heq⟩ | ⟨_, d, hd, heq⟩
      · rw [heq]; exact ih
      · rw [heq]; exact center_bounds cfg hW hH
      · rw [heq, resolve_player_tile_player]
        exact clampMove_bounds cfg hW hH s.player d
    | tick draw idx =>
      rw [poop_spawn_tick_player]
      exact ih

/-- A tile resolution that ends a live game without victory can only have
taken the hazard branch, which leaves the player standing on poop. -/
lemma resolve_lost_mem {s : GameState} (hgo : s.game_over = false)
    (h1 : (resolve_player_tile s).game_over = true)
    (h2 : (resolve_player_tile s).victory = false) :
    (resolve_player_tile s).player ∈ (resolve_player_tile s).poop := by
  unfold resolve_player_tile trigger_game_over at h1 h2 ⊢
  split_ifs at h1 h2 ⊢ with hp ht he
  · exact hp
  · simp [hgo] at h1
  · simp [hgo] at h1

/-- A lost game has the player on a poop tile: losses arise only from the
hazard branch of tile resolution or a hazard spawning onto the player. -/
lemma reachable_lost_mem_poop {cfg : Config} {s : GameState}
    (h : Reachable cfg s) :
    s.game_over = true → s.victory = false → s.player ∈ s.poop := by
  induction h with
  | start sh hperm =>
    intro hgo _
    simp [initGame, populate_trash] at hgo
  | @step s t _ hst ih =>
    cases hst with
    | key k sh hperm =>
      rcases handle_keypress_eq cfg k sh s with heq | ⟨_, heq⟩ | ⟨hgo0, d, hd, heq⟩
      all_goals rw [heq]
      · exact ih
      · intro hgo _
        simp [initGame, populate_trash] at hgo
      · exact fun h1 h2 => resolve_lost_mem hgo0 h1 h2
    | tick draw idx =>
      rcases poop_spawn_tick_eq cfg draw idx s with heq | ⟨p, hp, hgo0, heq⟩
      all_goals rw [heq]
      · exact ih
      · split_ifs with hpp
        · intro _ _
          show s.player ∈ insert p s.poop
          rw [← hpp]
          exact Finset.mem_insert_self p s.poop
        · intro h1 _
          have hgo1 : s.game_over = true := h1
          simp [hgo0] at hgo1

/-- No recognized movement keysym lowercases to the restart key `r`. -/
lemma movement_keyLower_ne {k : String} {d : Point} (h : movement k = some d) :
    keyLower k ≠ "r" := by
  unfold movement at h
  split_ifs at h with h1 h2 h3 h4 h5 h6 h7 h8
  · subst h1; decide
  · subst h2; decide
  · subst h3; decide
  · subst h4; decide
  · subst h5; decide
  · subst h6; decide
  · subst h7; decide
  · subst h8; decide

/-- The freshly drawn trash set has `min STARTING_TRASH (W*H − 1)` tiles:
the slice `available[:STARTING_TRASH]` silently caps at the list length. -/
lemma initGame_trash_card (cfg : Config) (hW : 0 < cfg.gridWidth)
    (hH : 0 < cfg.gridHeight) (sh : List Point)
    (hperm : sh.Perm ((allCells cfg).erase (center cfg))) :
    (initGame cfg sh).trash.card =
      min cfg.startingTrash (cfg.gridWidth * cfg.gridHeight - 1) := by
  have hnd : sh.Nodup := hperm.nodup_iff.mpr ((allCells_nodup cfg).erase _)
  have hlen : sh.length = cfg.gridWidth * cfg.gridHeight - 1 := by
    rw [hperm.length_eq, available_length cfg hW hH]
  show ((sh.take cfg.startingTrash).toFinset).card = _
  rw [List.toFinset_card_of_nodup (hnd.sublist (List.take_sublist _ _)),
    List.length_take, hlen]

/-- The fresh trash draw excludes the (centered) player's cell. -/
lemma center_not_mem_initGame_trash (cfg : Config) (sh : List Point)
    (hperm : sh.Perm ((allCells cfg).erase (center cfg))) :
    center cfg ∉ (initGame cfg sh).trash := by
  intro hmem
  have h1 : center cfg ∈ sh.take cfg.startingTrash :=
    List.mem_toFinset.mp hmem
  have h2 : center cfg ∈ sh := List.mem_of_mem_take h1
  exact center_not_mem_available cfg (hperm.mem_iff.mp h2)

/-! ### Claim theorems -/

/-- Claim C1: in every reachable game state — after initialization and any
sequence of key-presses, spawn ticks and restarts — the trash set and the
hazard (poop) set are disjoint: no cell is both trash and hazard. -/
theorem trash_hazards_disjoint {cfg : Config} {s : GameState}
    (h : Reachable cfg s) : s.trash ∩ s.poop = ∅ :=
  Finset.disjoint_iff_inter_eq_empty.mp (reachable_disjoint h)

/-- Witness for C1: the invariant evaluated at a concrete freshly
initialized 3x3 state. -/
theorem trash_hazards_disjoint_witness :
    (initGame cfg3 (idShuffle cfg3)).trash ∩ (initGame cfg3 (idShuffle cfg3)).poop = ∅ :=
  trash_hazards_disjoint (Reachable.start _ (List.Perm.refl _))

/-- Claim C2: once `game_over` holds, every movement key-press and every
spawn tick leaves the whole state unchanged — no-ops, not errors — until a
restart. -/
theorem terminal_mutations_noop {cfg : Config} {s : GameState}
    (hgo : s.game_over = true) :
    (∀ (k : String) (d : Point) (sh : List Point),
        movement k = some d → handle_keypress cfg k sh s = s) ∧
    (∀ (draw : Bool) (idx : Nat), poop_spawn_tick cfg draw idx s = s) := by
  constructor
  · intro k d sh hk
    simp [handle_keypress, hgo, movement_keyLower_ne hk]
  · intro draw idx
    simp [poop_spawn_tick, hgo]

/-- Witness for C2: a concrete lost state absorbs an `Up` press and a
spawn tick unchanged. -/
theorem terminal_mutations_noop_witness :
    handle_keypress cfg3 "Up" [] lostState = lostState ∧
    poop_spawn_tick cfg3 true 0 lostState = lostState :=
  ⟨(terminal_mutations_noop rfl).1 "Up" ⟨0, -1⟩ [] rfl,
   (terminal_mutations_noop rfl).2 true 0⟩

/-- Counterexample to claim C3 as stated: on a 2x2 grid with
`STARTING_TRASH = 10 ≥ 4` total cells, initialization does not fail — the
slice `available[:STARTING_TRASH]` silently truncates the layout to the
3 non-player cells, fewer than configured. -/
theorem no_failfast_counterexample :
    10 ≥ (2 * 2 : Nat) ∧
    (initGame ⟨2, 2, 10⟩ (idShuffle ⟨2, 2, 10⟩)).trash.card = 3 ∧
    (3 : Nat) < 10 := by decide

/-- Claim C3 amended: when `STARTING_TRASH` is at least the total cell
count, initialization does not raise a configuration error; it silently
truncates, producing a trash set of exactly `W*H − 1` tiles (every cell
except the player's). -/
theorem oversized_trash_truncates {cfg : Config} (hW : 0 < cfg.gridWidth)
    (hH : 0 < cfg.gridHeight)
    (hbig : cfg.gridWidth * cfg.gridHeight ≤ cfg.startingTrash)
    (sh : List Point) (hperm : sh.Perm ((allCells cfg).erase (center cfg))) :
    (initGame cfg sh).trash.card = cfg.gridWidth * cfg.gridHeight - 1 := by
  rw [initGame_trash_card cfg hW hH sh hperm]
  omega

/-- Witness for the amended C3 on the concrete 2x2 grid. -/
theorem oversized_trash_truncates_witness :
    (initGame ⟨2, 2, 10⟩ (idShuffle ⟨2, 2, 10⟩)).trash.card = 2 * 2 - 1 :=
  oversized_trash_truncates (by decide) (by decide) (by decide) _
    (List.Perm.refl _)

/-- Claim C4: in every reachable state of a grid with positive dimensions
the player's coordinate lies in `[0, W) × [0, H)`. -/
theorem player_in_bounds {cfg : Config} (hW : 0 < cfg.gridWidth)
    (hH : 0 < cfg.gridHeight) {s : GameState} (h : Reachable cfg s) :
    0 ≤ s.player.x ∧ s.player.x < (cfg.gridWidth : Int) ∧
    0 ≤ s.player.y ∧ s.player.y < (cfg.gridHeight : Int) :=
  reachable_player_bounds hW hH h

/-- Witness for C4 at a concrete freshly initialized 3x3 state. -/
theorem player_in_bounds_witness :
    0 ≤ (initGame cfg3 (idShuffle cfg3)).player.x ∧
    (initGame cfg3 (idShuffle cfg3)).player.x < (cfg3.gridWidth : Int) ∧
    0 ≤ (initGame cfg3 (idShuffle cfg3)).player.y ∧
    (initGame cfg3 (idShuffle cfg3)).player.y < (cfg3.gridHeight : Int) :=
  player_in_bounds (by decide) (by decide) (Reachable.start _ (List.Perm.refl _))

/-- Claim C5: in every reachable state, `game_over ∧ ¬victory` (Lost)
implies the player stands on a hazard tile. -/
theorem lost_player_on_hazard {cfg : Config} {s : GameState}
    (h : Reachable cfg s) (hgo : s.game_over = true) (hv : s.victory = false) :
    s.player ∈ s.poop :=
  reachable_lost_mem_poop h hgo hv

/-- Witness for C5: on the 1x1 grid the first successful spawn tick lands
on the player, reaching a concrete Lost state with the player on poop. -/
theorem lost_player_on_hazard_witness :
    (poop_spawn_tick cfg1 true 0 (initGame cfg1 [])).player ∈
      (poop_spawn_tick cfg1 true 0 (initGame cfg1 [])).poop :=
  lost_player_on_hazard
    (Reachable.step (Reachable.start [] (by decide)) (Step.tick _ true 0))
    (by decide) (by decide)

/-- Claim C6: from a reachable non-terminal state, a move whose clamped
destination is a trash tile removes that tile from the trash set, and if the
set thereby empties the state becomes Won (`game_over ∧ victory`). -/
theorem move_collects_trash {cfg : Config} {s : GameState}
    (h : Reachable cfg s) (hgo : s.game_over = false) {k : String} {d : Point}
    (hk : movement k = some d) (sh : List Point)
    (ht : clampMove cfg s.player d ∈ s.trash) :
    (handle_keypress cfg k sh s).trash =
      s.trash.erase (clampMove cfg s.player d) ∧
    (s.trash.erase (clampMove cfg s.player d) = ∅ →
      (handle_keypress cfg k sh s).game_over = true ∧
      (handle_keypress cfg k sh s).victory = true) := by
  have hpoop : clampMove cfg s.player d ∉ s.poop :=
    Finset.disjoint_left.mp (reachable_disjoint h) ht
  have heq : handle_keypress cfg k sh s =
      resolve_player_tile { s with player := clampMove cfg s.player d } := by
    simp [handle_keypress, hgo, hk]
  rw [heq]
  unfold resolve_player_tile trigger_game_over
  split_ifs with h1 h2
  · exact absurd h1 hpoop
  · exact ⟨rfl, fun _ => ⟨rfl, rfl⟩⟩
  · exact ⟨rfl, fun he => absurd he h2⟩

/-- Witness for C6: the spec's 3x3 win scenario — single trash at `(2,1)`,
player at center `(1,1)`, move `Right`. -/
theorem move_collects_trash_witness :
    (handle_keypress cfg3 "Right" [] (initGame cfg3 winShuffle)).trash =
      (initGame cfg3 winShuffle).trash.erase
        (clampMove cfg3 (initGame cfg3 winShuffle).player ⟨1, 0⟩) ∧
    ((initGame cfg3 winShuffle).trash.erase
        (clampMove cfg3 (initGame cfg3 winShuffle).player ⟨1, 0⟩) = ∅ →
      (handle_keypress cfg3 "Right" [] (initGame cfg3 winShuffle)).game_over = true ∧
      (handle_keypress cfg3 "Right" [] (initGame cfg3 winShuffle)).victory = true) :=
  move_collects_trash (Reachable.start _ (by decide)) (by decide) (by decide)
    [] (by decide)

/-- Claim C7: in a non-terminal state, a spawn tick whose draw succeeds and
whose chosen cell is the player's cell makes the state Lost immediately,
without moving the player. -/
theorem spawn_on_player_loses {cfg : Config} {s : GameState}
    (hgo : s.game_over = false) (idx : Nat) (c : Point) (cs : List Point)
    (hc : spawn_candidates cfg s = c :: cs)
    (hchoice : (c :: cs).getD (idx % (c :: cs).length) c = s.player) :
    (poop_spawn_tick cfg true idx s).game_over = true ∧
    (poop_spawn_tick cfg true idx s).victory = false ∧
    (poop_spawn_tick cfg true idx s).player = s.player := by
  simp only [poop_spawn_tick, hgo, hc, hchoice, trigger_game_over]
  simp

/-- Witness for C7: the 1x1 board where the only free cell is the player's;
theorem applied at the concrete initial state. -/
theorem spawn_on_player_loses_witness :
    (poop_spawn_tick cfg1 true 0 (initGame cfg1 [])).game_over = true ∧
    (poop_spawn_tick cfg1 true 0 (initGame cfg1 [])).victory = false ∧
    (poop_spawn_tick cfg1 true 0 (initGame cfg1 [])).player =
      (initGame cfg1 []).player :=
  spawn_on_player_loses (by decide) 0 ⟨0, 0⟩ [] (by decide) (by decide)

/-- Claim C8: in a non-terminal state a movement key always sets the player
to the coordinate-wise clamp of `player + delta` into the grid and then
resolves that tile; at `(0,0)` a `(-1,0)` or `(0,-1)` move stays at `(0,0)`
while still resolving, and the player position updates even when the move
ends the game. -/
theorem move_clamps_and_resolves {cfg : Config} (hW : 0 < cfg.gridWidth)
    (hH : 0 < cfg.gridHeight) {s : GameState} (hgo : s.game_over = false)
    {k : String} {d : Point} (hk : movement k = some d) (sh : List Point) :
    handle_keypress cfg k sh s =
      resolve_player_tile { s with player := clampMove cfg s.player d } ∧
    (handle_keypress cfg k sh s).player = clampMove cfg s.player d ∧
    (s.player = ⟨0, 0⟩ → (d = ⟨-1, 0⟩ ∨ d = ⟨0, -1⟩) →
      (handle_keypress cfg k sh s).player = ⟨0, 0⟩) := by
  have heq : handle_keypress cfg k sh s =
      resolve_player_tile { s with player := clampMove cfg s.player d } := by
    simp [handle_keypress, hgo, hk]
  have hplayer : (handle_keypress cfg k sh s).player = clampMove cfg s.player d := by
    rw [heq, resolve_player_tile_player]
  refine ⟨heq, hplayer, ?_⟩
  intro hp hd
  rw [hplayer]
  have hW' : (1 : Int) ≤ (cfg.gridWidth : Int) := by exact_mod_cast hW
  have hH' : (1 : Int) ≤ (cfg.gridHeight : Int) := by exact_mod_cast hH
  rcases hd with rfl | rfl <;>
    · rw [hp]
      unfold clampMove
      dsimp only
      congr 1 <;> omega

/-- Witness for C8: the clamping scenario — player at the origin pressing
`Left` on the 3x3 grid. -/
theorem move_clamps_and_resolves_witness :
    handle_keypress cfg3 "Left" [] originState =
      resolve_player_tile
        { originState with player := clampMove cfg3 originState.player ⟨-1, 0⟩ } ∧
    (handle_keypress cfg3 "Left" [] originState).player =
      clampMove cfg3 originState.player ⟨-1, 0⟩ ∧
    (originState.player = ⟨0, 0⟩ →
      ((⟨-1, 0⟩ : Point) = ⟨-1, 0⟩ ∨ (⟨-1, 0⟩ : Point) = ⟨0, -1⟩) →
      (handle_keypress cfg3 "Left" [] originState).player = ⟨0, 0⟩) :=
  move_clamps_and_resolves (by decide) (by decide) (by decide) (by decide) []

/-- Claim C9: restart from any state yields `game_over = false`,
`victory = false`, the player at the integer-division grid center, no
hazards, and a fresh trash set of exactly `STARTING_TRASH` distinct cells
avoiding the player (for configurations with enough free cells). -/
theorem restart_resets {cfg : Config} (hW : 0 < cfg.gridWidth)
    (hH : 0 < cfg.gridHeight)
    (hfit : cfg.startingTrash ≤ cfg.gridWidth * cfg.gridHeight - 1)
    (sh : List Point) (hperm : sh.Perm ((allCells cfg).erase (center cfg)))
    (s : GameState) :
    (restart cfg sh s).game_over = false ∧
    (restart cfg sh s).victory = false ∧
    (restart cfg sh s).player = center cfg ∧
    (restart cfg sh s).poop = ∅ ∧
    (restart cfg sh s).trash.card = cfg.startingTrash ∧
    (restart cfg sh s).player ∉ (restart cfg sh s).trash := by
  refine ⟨rfl, rfl, rfl, rfl, ?_, ?_⟩
  · show (initGame cfg sh).trash.card = _
    rw [initGame_trash_card cfg hW hH sh hperm]
    omega
  · exact center_not_mem_initGame_trash cfg sh hperm

/-- Witness for C9: restarting out of the concrete lost state on the 3x3
grid. -/
theorem restart_resets_witness :
    (restart cfg3 (idShuffle cfg3) lostState).game_over = false ∧
    (restart cfg3 (idShuffle cfg3) lostState).victory = false ∧
    (restart cfg3 (idShuffle cfg3) lostState).player = center cfg3 ∧
    (restart cfg3 (idShuffle cfg3) lostState).poop = ∅ ∧
    (restart cfg3 (idShuffle cfg3) lostState).trash.card = cfg3.startingTrash ∧
    (restart cfg3 (idShuffle cfg3) lostState).player ∉
      (restart cfg3 (idShuffle cfg3) lostState).trash :=
  restart_resets (by decide) (by decide) (by decide) _ (List.Perm.refl _)
    lostState

/-- Claim C10: in a non-terminal state, a move whose clamped destination is
a hazard changes only the player position and the terminal flags — the
trash and poop sets are exactly preserved (the hazard branch short-circuits
before any trash removal). -/
theorem move_onto_hazard_frame {cfg : Config} {s : GameState}
    (hgo : s.game_over = false) {k : String} {d : Point}
    (hk : movement k = some d) (sh : List Point)
    (hp : clampMove cfg s.player d ∈ s.poop) :
    (handle_keypress cfg k sh s).trash = s.trash ∧
    (handle_keypress cfg k sh s).poop = s.poop ∧
    (handle_keypress cfg k sh s).player = clampMove cfg s.player d ∧
    (handle_keypress cfg k sh s).game_over = true ∧
    (handle_keypress cfg k sh s).victory = false := by
  have heq : handle_keypress cfg k sh s =
      resolve_player_tile { s with player := clampMove cfg s.player d } := by
    simp [handle_keypress, hgo, hk]
  rw [heq]
  simp [resolve_player_tile, trigger_game_over, hp]

/-- Witness for C10: the spec's loss-by-move scenario — hazard at `(2,1)`,
player at `(1,1)`, move `Right` on the 3x3 grid. -/
theorem move_onto_hazard_frame_witness :
    (handle_keypress cfg3 "Right" [] hazardState).trash = hazardState.trash ∧
    (handle_keypress cfg3 "Right" [] hazardState).poop = hazardState.poop ∧
    (handle_keypress cfg3 "Right" [] hazardState).player =
      clampMove cfg3 hazardState.player ⟨1, 0⟩ ∧
    (handle_keypress cfg3 "Right" [] hazardState).game_over = true ∧
    (handle_keypress cfg3 "Right" [] hazardState).victory = false :=
  move_onto_hazard_frame (by decide) (by decide) [] (by decide)

end Roomba
